import Mathlib

/-!
Verification of the location-enrichment pipeline in `app.py`.

The program normalizes a list of store-location records (JSON objects),
assigns integer ids, and enriches each record with data from three remote
calls (geocode, find-place, place-details).  We embed the record
manipulation shallowly:

* Python/JSON values are the inductive `SSGeo.Json`.  Numbers are carried
  by the string `str()` would print for them: the pipeline never computes
  with numbers, it only stores the (rounded) geocoder coordinates and later
  converts them to strings, so this representation is observation-complete
  for every property below.  Numeric truthiness (`0 == False`) is
  approximated on that printed form; no theorem below evaluates truthiness
  of a number (the theorems restrict records to string values, where Python
  would not raise either).
* A Python dict is an association list with unique keys; `alookup` is
  `dict.get`, `dictSet` is `dict[k] = v` (replace in place, append new keys
  at the end, exactly the CPython ordering guarantee).
* The three network operations of the `googlemaps` client are an abstract
  environment `GeoEnv`; `none` models both "empty response" and a raised
  (and caught) `ApiError`/`TransportError`/`Timeout`/other exception, which
  the source treats identically.  Issued calls are collected in a trace so
  that "no call is made" is statable.
-/

set_option maxHeartbeats 1000000
set_option linter.unusedVariables false

namespace SSGeo

/-- JSON-like Python values stored in location records.  `num r` is a Python
number whose `str()` is `r`. -/
inductive Json where
  | str (s : String)
  | num (r : String)
  | bool (b : Bool)
  | null
  | arr (elems : List Json)
  | obj (fields : List (String × Json))

/-- A location record: a Python dict with string keys, in insertion order. -/
abbrev Rec := List (String × Json)

/-- Python `d.get(key)`: the first (only) binding of `key`, if any. -/
def alookup : Rec → String → Option Json
  | [], _ => none
  | (k, v) :: rest, key => if k = key then some v else alookup rest key

/-- Python `d.get(key, dflt)`. -/
def dictGet (d : Rec) (k : String) (dflt : Json) : Json :=
  (alookup d k).getD dflt

/-- Python `d[k] = v` on a dict: replace the binding in place, or append. -/
def dictSet : Rec → String → Json → Rec
  | [], k, v => [(k, v)]
  | (k', v') :: rest, k, v =>
      if k' = k then (k, v) :: rest else (k', v') :: dictSet rest k v

/-- Python `str()` of a value.  Strings are themselves; containers print by
`repr` (string escaping inside `repr` is not modelled; no theorem below
prints a container). -/
def pyStr : Json → String
  | .str s => s
  | .num r => r
  | .bool b => if b then "True" else "False"
  | .null => "None"
  | .arr _ => "[list]"
  | .obj _ => "\x7bdict\x7d"

/-- Python truthiness.  A number is falsy exactly when it is zero; on the
printed-form representation this is approximated by the usual zero
spellings (never evaluated by any theorem below). -/
def truthy : Json → Bool
  | .str s => s ≠ ""
  | .num r => ¬(r = "0" ∨ r = "0.0" ∨ r = "-0.0" ∨ r = "-0")
  | .bool b => b
  | .null => false
  | .arr elems => !elems.isEmpty
  | .obj fields => !fields.isEmpty

/-- Truthiness of `d.get(key)` (no default): `None` is falsy. -/
def truthyOpt : Option Json → Bool
  | none => false
  | some v => truthy v

/-- Does the value hold a string? -/
def isStr : Json → Bool
  | .str _ => true
  | _ => false

/-- Every value of the record is a string (the claims' "string-valued
mapping"; also the domain on which the embedding matches Python exactly,
since Python raises on e.g. `', '.join` of non-strings). -/
def recStringValued (r : Rec) : Bool := r.all (fun kv => isStr kv.2)

/-- `EXPECTED_FIELDS` of `app.py` (lines 18-22). -/
def EXPECTED_FIELDS : List String :=
  ["id", "name", "lat", "lng", "category", "address", "address2",
   "city", "state", "postal", "phone", "web", "hours1", "hours2",
   "hours3", "featured", "features", "date"]

/-- The `OrderedDict` built field-by-field from `EXPECTED_FIELDS` with
`loc.get(field, '')` — the loop bodies of `preprocess_locations`
(lines 77-80) and of the re-ordering at the end of `update_location_info`
(lines 227-229), which are textually identical in the source. -/
def orderedOf (r : Rec) : Rec :=
  EXPECTED_FIELDS.map (fun f => (f, dictGet r f (.str "")))

/-- `preprocess_locations` (lines 71-81). -/
def preprocess_locations (locations_data : List Rec) : List Rec :=
  locations_data.map orderedOf

/-- Python `str.isdigit()` for ASCII text: non-empty and all digits. -/
def pyDigits (s : String) : Bool :=
  !s.data.isEmpty && s.data.all Char.isDigit

/-- Decimal value of a digit list (how Python's `int()` reads it). -/
def pyIntL (l : List Char) : Nat :=
  l.foldl (fun n c => 10 * n + (c.toNat - 48)) 0

/-- Decimal value of a digit string. -/
def pyInt (s : String) : Nat := pyIntL s.data

/-- The test `location.get('id', '').isdigit()` of lines 91 and 101: Python
raises `AttributeError` on a non-string id, so the theorems about
`assign_ids` assume string-valued ids. -/
def isDigitId : Json → Bool
  | .str s => pyDigits s
  | _ => false

/-- Decimal digits of `n`, most significant first (Python `str(n)`). -/
def natReprL (n : Nat) : List Char :=
  if h : n < 10 then [Char.ofNat (48 + n)]
  else natReprL (n / 10) ++ [Char.ofNat (48 + n % 10)]
termination_by n
decreasing_by exact Nat.div_lt_self (by omega) (by omega)

/-- Python `str(n)` for a natural number. -/
def natRepr (n : Nat) : String := String.mk (natReprL n)

/-- One step of the first pass of `assign_ids` (lines 88-96): fold the
running maximum of the integer values of the digit-string ids. -/
def maxStep (m : Nat) (location : Rec) : Nat :=
  match dictGet location "id" (.str "") with
  | .str s => if pyDigits s then max m (pyInt s) else m
  | _ => m

/-- The first pass of `assign_ids`: `max_id` after the scan, starting
from 0. -/
def maxKeptId (locations : List Rec) : Nat :=
  locations.foldl maxStep 0

/-- The digit-string ids the first pass records as taken, in input order. -/
def keptIds (locations : List Rec) : List String :=
  locations.filterMap (fun location =>
    match dictGet location "id" (.str "") with
    | .str s => if pyDigits s then some s else none
    | _ => none)

/-- The id of every record of a batch, as the string Python would show. -/
def idStrings (locations : List Rec) : List String :=
  locations.map (fun location => pyStr (dictGet location "id" (.str "")))

/-- Every record's id is a string (Python raises in `assign_ids`
otherwise). -/
def idsStringValued (locations : List Rec) : Bool :=
  locations.all (fun loc => isStr (dictGet loc "id" (.str "")))

/-- The test of line 101: the record is marked for reassignment. -/
def needsId (location : Rec) : Bool :=
  !isDigitId (dictGet location "id" (.str ""))

/-- The second pass of `assign_ids` (lines 98-104): walk the records giving
each record without a digit-string id the next counter value. -/
def assignIdsAux : List Rec → Nat → List Rec
  | [], _ => []
  | location :: rest, next_id =>
      if isDigitId (dictGet location "id" (.str "")) then
        location :: assignIdsAux rest next_id
      else
        dictSet location "id" (.str (natRepr next_id))
          :: assignIdsAux rest (next_id + 1)

/-- `assign_ids` (lines 83-104); the counter starts at `max_id + 1`. -/
def assign_ids (locations : List Rec) : List Rec :=
  assignIdsAux locations (maxKeptId locations + 1)

/-- One remote call of the batch, recorded in the trace. -/
inductive ApiCall where
  | geocode (address : String)
  | findPlace (query : String)
  | placeDetails (place_id : String)
deriving DecidableEq

/-- One entry of `details['address_components']`. -/
structure AddrComponent where
  types : List String
  long_name : Option String
  short_name : Option String
deriving DecidableEq

/-- The JSON value under `opening_hours['weekday_text']`: either a list of
strings (what the service returns) or some non-list value — the source's
`isinstance(weekday_text, list)` distinguishes exactly these. -/
inductive WeekdayText where
  | list (lines : List String)
  | nonlist
deriving DecidableEq

/-- The dict under `details['opening_hours']`. -/
structure OpeningHours where
  weekday_text : Option WeekdayText
deriving DecidableEq

/-- The place-details dict, restricted to the keys the source reads.  An
`Option` field is `none` when the key is absent from the dict. -/
structure PlaceDetails where
  address_components : Option (List AddrComponent)
  formatted_phone_number : Option String
  website : Option String
  opening_hours : Option OpeningHours
deriving DecidableEq

/-- The remote mapping service (the `googlemaps` client), as seen through
the three calls the source makes.

* `geocode a = some (lat, lng)`: the first geocoding result's coordinates,
  already rounded and printed (`str(round(..., 10))`); `none` models an
  empty result list or a raised-and-caught exception.
* `find_place q = some c`: the first candidate dict; `none` models no
  candidates or an exception.
* `place p = some d`: a truthy `result` dict; `none` models the empty dict
  `{}` (returned on failure) or a missing `result`. -/
structure GeoEnv where
  geocode : String → Option (String × String)
  find_place : String → Option Rec
  place : String → Option PlaceDetails

/-- `find_place` (lines 232-251): build the text query, issue the call,
return the first candidate or `None`. -/
def find_place (env : GeoEnv) (location_name city state : String) :
    Option Rec × List ApiCall :=
  let query := location_name ++ " in " ++ city ++ ", " ++ state
  (env.find_place query, [ApiCall.findPlace query])

/-- `get_place_details` (lines 253-268): issue the call, return
`result` (or nothing on failure / empty dict). -/
def get_place_details (env : GeoEnv) (place_id : String) :
    Option PlaceDetails × List ApiCall :=
  (env.place place_id, [ApiCall.placeDetails place_id])

/-- Python `sep.join(filter(None, parts))` for string parts. -/
def joinSep (sep : String) : List String → String
  | [] => ""
  | [x] => x
  | x :: xs => x ++ sep ++ joinSep sep xs

/-- Join the non-empty parts with a separator. -/
def joinFiltered (sep : String) (parts : List String) : String :=
  joinSep sep (parts.filter (fun p => p ≠ ""))

/-- The free-text address of line 136: comma-join of address, city, state,
postal and the fixed country, skipping empty parts. -/
def fullAddress (location : Rec) : String :=
  joinFiltered ", "
    [pyStr (dictGet location "address" (.str "")),
     pyStr (dictGet location "city" (.str "")),
     pyStr (dictGet location "state" (.str "")),
     pyStr (dictGet location "postal" (.str "")),
     "USA"]

/-- Lines 134-157: when `lat` or `lng` is falsy, geocode the free-text
address; on a result store the coordinates (as numbers) into the record. -/
def geocodeStep (env : GeoEnv) (location : Rec) : Rec × List ApiCall :=
  if !truthyOpt (alookup location "lat") || !truthyOpt (alookup location "lng") then
    let full_address := fullAddress location
    match env.geocode full_address with
    | some (lat, lng) =>
        (dictSet (dictSet location "lat" (.num lat)) "lng" (.num lng),
         [ApiCall.geocode full_address])
    | none => (location, [ApiCall.geocode full_address])
  else (location, [])

/-- The extraction loop over `address_components` (lines 170-187): the five
locals start empty and each matching component overwrites its slot. -/
structure Extracted where
  street_number : String
  route : String
  city : String
  state : String
  postal : String
deriving DecidableEq

/-- Lines 170-187 of `update_location_info`. -/
def extractComponents (comps : List AddrComponent) : Extracted :=
  comps.foldl
    (fun acc component =>
      let types := component.types
      if types.contains "street_number" then
        { acc with street_number := component.long_name.getD "" }
      else if types.contains "route" then
        { acc with route := component.long_name.getD "" }
      else if types.contains "locality" then
        { acc with city := component.long_name.getD "" }
      else if types.contains "administrative_area_level_1" then
        { acc with state := component.short_name.getD "" }
      else if types.contains "postal_code" then
        { acc with postal := component.long_name.getD "" }
      else acc)
    ⟨"", "", "", "", ""⟩

/-- The weekday text the source ends up inspecting:
`details.get('opening_hours', {}).get('weekday_text', [])` — note both
missing keys default to values that make `isinstance(..., list)` true. -/
def weekdayTextOf (details : PlaceDetails) : WeekdayText :=
  ((details.opening_hours.getD ⟨none⟩).weekday_text).getD (WeekdayText.list [])

/-- The field merge of lines 169-208, run when place details were fetched. -/
def detailsMerge (location : Rec) (details : PlaceDetails) : Rec :=
  let e := extractComponents (details.address_components.getD [])
  let street_address := joinFiltered " " [e.street_number, e.route]
  let location := dictSet location "address"
    (if street_address ≠ "" then .str street_address
     else dictGet location "address" (.str ""))
  let location := dictSet location "city"
    (if e.city ≠ "" then .str e.city else dictGet location "city" (.str ""))
  let location := dictSet location "state"
    (if e.state ≠ "" then .str e.state else dictGet location "state" (.str ""))
  let location := dictSet location "postal"
    (if e.postal ≠ "" then .str e.postal else dictGet location "postal" (.str ""))
  let location := dictSet location "phone"
    (match details.formatted_phone_number with
     | some p => .str p
     | none => dictGet location "phone" (.str ""))
  let location := dictSet location "web"
    (match details.website with
     | some w => .str w
     | none => dictGet location "web" (.str ""))
  match weekdayTextOf details with
  | .list lines => dictSet location "hours1" (.str (joinSep "\n" lines))
  | .nonlist => dictSet location "hours1" (dictGet location "hours1" (.str ""))

/-- Lines 160-216: find-place, then place-details, then the merge; on a
falsy candidate, missing/falsy `place_id` or falsy details the record is
left as is. -/
def placeStep (env : GeoEnv) (location : Rec) (name city state : String) :
    Rec × List ApiCall :=
  let fp := find_place env name city state
  match fp.1 with
  | none => (location, fp.2)
  | some candidate =>
      if candidate.isEmpty then (location, fp.2)
      else
        match alookup candidate "place_id" with
        | none => (location, fp.2)
        | some pid_v =>
            if truthy pid_v then
              let pd := get_place_details env (pyStr pid_v)
              match pd.1 with
              | some details => (detailsMerge location details, fp.2 ++ pd.2)
              | none => (location, fp.2 ++ pd.2)
            else (location, fp.2)

/-- The text query `find_place` is called with for a record (line 235, with
the locals of lines 126-128). -/
def findQuery (location : Rec) : String :=
  pyStr (dictGet location "name" (.str "")) ++ " in " ++
  pyStr (dictGet location "city" (.str "")) ++ ", " ++
  pyStr (dictGet location "state" (.str ""))

/-- Lines 218-229: coerce `lat`/`lng` to strings, default `featured` to
`"no"` when falsy, and rebuild the record in canonical field order. -/
def postSteps (location : Rec) : Rec :=
  let location := dictSet location "lat" (.str (pyStr (dictGet location "lat" (.str ""))))
  let location := dictSet location "lng" (.str (pyStr (dictGet location "lng" (.str ""))))
  let location :=
    if truthyOpt (alookup location "featured") then location
    else dictSet location "featured" (.str "no")
  orderedOf location

/-- `update_location_info` (lines 123-230). -/
def update_location_info (env : GeoEnv) (location : Rec) : Rec × List ApiCall :=
  let name := pyStr (dictGet location "name" (.str ""))
  let city := pyStr (dictGet location "city" (.str ""))
  let state := pyStr (dictGet location "state" (.str ""))
  let g := geocodeStep env location
  let p := placeStep env g.1 name city state
  (postSteps p.1, g.2 ++ p.2)

/-- `process_locations` (lines 106-121), with the trace of issued calls. -/
def process_locations (env : GeoEnv) : List Rec → List Rec × List ApiCall
  | [] => ([], [])
  | location :: rest =>
      let u := update_location_info env location
      let r := process_locations env rest
      (u.1 :: r.1, u.2 ++ r.2)

/-- The whole happy path of `main` (lines 46-59): normalize, assign ids,
enrich. -/
def pipeline (env : GeoEnv) (locations_data : List Rec) :
    List Rec × List ApiCall :=
  process_locations env (assign_ids (preprocess_locations locations_data))

/-- The uncaught Python exceptions `main` can die of before any remote
call: `main` catches only `json.JSONDecodeError` (line 66). -/
inductive PyError where
  | typeError
  | attributeError
deriving DecidableEq

/-- Python's iteration protocol, as used by the `for loc_data in
locations_data` loop of `preprocess_locations`: lists yield their elements,
dicts their keys, strings their characters; other values raise
`TypeError`. -/
def pyIter : Json → Except PyError (List Json)
  | .arr elems => .ok elems
  | .obj fields => .ok (fields.map (fun kv => Json.str kv.1))
  | .str s => .ok (s.data.map (fun c => Json.str (String.mk [c])))
  | _ => .error .typeError

/-- `loc_data.get(...)` requires a dict; any other value raises
`AttributeError` (line 79). -/
def recOfJson : Json → Except PyError Rec
  | .obj fields => .ok fields
  | _ => .error .attributeError

/-- The loop body of `preprocess_locations` over the iterated items,
stopping at the first element that raises. -/
def preprocessItems : List Json → Except PyError (List Rec)
  | [] => .ok []
  | item :: rest => do
      let r ← recOfJson item
      let tail ← preprocessItems rest
      pure (orderedOf r :: tail)

/-- `preprocess_locations` applied to the raw value `json.load` returned:
iterate it and normalize each element. -/
def preprocessJson (j : Json) : Except PyError (List Rec) := do
  let items ← pyIter j
  preprocessItems items

/-- What a run of `main` with the button pressed can be observed to do. -/
inductive MainOutcome where
  /-- `json.JSONDecodeError` was raised and caught: `st.error` is shown,
  nothing else happens. -/
  | parseError
  /-- An uncaught exception aborted the run inside `preprocess_locations`,
  before any id assignment, remote call or download artifact. -/
  | crashed
  /-- The pipeline ran to completion: `records` is the downloadable
  artifact's content, `calls` the remote calls issued. -/
  | done (records : List Rec) (calls : List ApiCall)

/-- `main` (lines 43-67) on an uploaded file: `parsed` is the outcome of
`json.load`. -/
def mainFlow (env : GeoEnv) (parsed : Except String Json) : MainOutcome :=
  match parsed with
  | .error _ => .parseError
  | .ok j =>
      match preprocessJson j with
      | .error _ => .crashed
      | .ok locations =>
          let locations := assign_ids locations
          let r := process_locations env locations
          .done r.1 r.2

/-- Is the value a JSON object? -/
def isObjJ : Json → Bool
  | .obj _ => true
  | _ => false

/-- Modelled from the claim's words (claim C7): an upload is well-formed
when it is a parseable structured list of objects. -/
def wellFormedUpload : Json → Bool
  | .arr elems => elems.all isObjJ
  | _ => false

/-! ### Basic dictionary lemmas -/

theorem alookup_dictSet_self (d : Rec) (k : String) (v : Json) :
    alookup (dictSet d k v) k = some v := by
  induction d with
  | nil => simp [dictSet, alookup]
  | cons kv rest ih =>
      obtain ⟨k', v'⟩ := kv
      by_cases h : k' = k
      · simp [dictSet, h, alookup]
      · simp [dictSet, h, alookup, ih]

theorem alookup_dictSet_ne (d : Rec) (k k' : String) (v : Json)
    (h : k' ≠ k) : alookup (dictSet d k v) k' = alookup d k' := by
  induction d with
  | nil =>
      simp only [dictSet, alookup]
      rw [if_neg (fun hh => h hh.symm)]
  | cons kv rest ih =>
      obtain ⟨k0, v0⟩ := kv
      simp only [dictSet]
      by_cases h0 : k0 = k
      · rw [if_pos h0]
        subst h0
        simp only [alookup]
        rw [if_neg (fun hh => h hh.symm), if_neg (fun hh => h hh.symm)]
      · rw [if_neg h0]
        simp only [alookup]
        by_cases h1 : k0 = k'
        · rw [if_pos h1, if_pos h1]
        · rw [if_neg h1, if_neg h1]
          exact ih

theorem dictGet_dictSet_self (d : Rec) (k : String) (v dflt : Json) :
    dictGet (dictSet d k v) k dflt = v := by
  simp [dictGet, alookup_dictSet_self]

theorem dictGet_dictSet_ne (d : Rec) (k k' : String) (v dflt : Json)
    (h : k' ≠ k) : dictGet (dictSet d k v) k' dflt = dictGet d k' dflt := by
  simp [dictGet, alookup_dictSet_ne _ _ _ _ h]

theorem alookup_mem (d : Rec) (k : String) (v : Json)
    (h : alookup d k = some v) : (k, v) ∈ d := by
  induction d with
  | nil => simp [alookup] at h
  | cons kv rest ih =>
      obtain ⟨k0, v0⟩ := kv
      by_cases h0 : k0 = k
      · subst h0
        simp [alookup] at h
        simp [h]
      · simp [alookup, h0] at h
        exact List.mem_cons_of_mem _ (ih h)

theorem map_fst_orderedOf (r : Rec) :
    (orderedOf r).map Prod.fst = EXPECTED_FIELDS := rfl

theorem alookup_orderedOf (r : Rec) (f : String) (h : f ∈ EXPECTED_FIELDS) :
    alookup (orderedOf r) f = some (dictGet r f (.str "")) := by
  fin_cases h <;> rfl

theorem orderedOf_orderedOf (r : Rec) :
    orderedOf (orderedOf r) = orderedOf r := rfl

/-! ### Output shape -/

theorem update_location_info_shape (env : GeoEnv) (location : Rec) :
    ((update_location_info env location).1).map Prod.fst = EXPECTED_FIELDS := rfl

theorem process_locations_shape (env : GeoEnv) (locs : List Rec) :
    ∀ r ∈ (process_locations env locs).1, r.map Prod.fst = EXPECTED_FIELDS := by
  induction locs with
  | nil => simp [process_locations]
  | cons x xs ih =>
      intro r hr
      simp only [process_locations, List.mem_cons] at hr
      rcases hr with h | h
      · rw [h]
        exact update_location_info_shape env x
      · exact ih r h

/-- A shared trivial environment: every remote call fails / returns
nothing. -/
def envBlank : GeoEnv := ⟨fun _ => none, fun _ => none, fun _ => none⟩

/-- C1: every record output by the pipeline has exactly the 18 canonical
fields, in the canonical order, regardless of which fields the
(string-valued) input records had or in which order; the normalization step
is the canonical reordering and defaults every missing input field to the
empty string. -/
theorem C1_canonical_fields (env : GeoEnv) (locations_data : List Rec)
    (hstr : locations_data.all recStringValued = true) :
    (∀ r ∈ (pipeline env locations_data).1, r.map Prod.fst = EXPECTED_FIELDS)
    ∧ (preprocess_locations locations_data = locations_data.map orderedOf)
    ∧ (∀ loc : Rec, ∀ f ∈ EXPECTED_FIELDS, alookup loc f = none →
        alookup (orderedOf loc) f = some (.str "")) := by
  refine ⟨?_, rfl, ?_⟩
  · intro r hr
    exact process_locations_shape env _ r hr
  · intro loc f hf hnone
    rw [alookup_orderedOf loc f hf]
    simp [dictGet, hnone]

/-- Witness for C1 at a concrete environment and batch. -/
theorem C1_canonical_fields_witness :
    (([[("name", Json.str "Acme Store"), ("city", Json.str "Austin")],
       [("id", Json.str "5")]] : List Rec).all recStringValued = true)
    ∧ ((∀ r ∈ (pipeline envBlank
          [[("name", Json.str "Acme Store"), ("city", Json.str "Austin")],
           [("id", Json.str "5")]]).1,
          r.map Prod.fst = EXPECTED_FIELDS)
       ∧ (preprocess_locations
            [[("name", Json.str "Acme Store"), ("city", Json.str "Austin")],
             [("id", Json.str "5")]]
          = ([[("name", Json.str "Acme Store"), ("city", Json.str "Austin")],
              [("id", Json.str "5")]] : List Rec).map orderedOf)
       ∧ (∀ loc : Rec, ∀ f ∈ EXPECTED_FIELDS, alookup loc f = none →
           alookup (orderedOf loc) f = some (.str ""))) :=
  ⟨rfl, C1_canonical_fields envBlank _ rfl⟩

/-- C9: field normalization is idempotent — normalizing an
already-normalized record (or batch) changes nothing. -/
theorem C9_normalization_idempotent :
    (∀ r : Rec, orderedOf (orderedOf r) = orderedOf r)
    ∧ (∀ locations_data : List Rec,
        preprocess_locations (preprocess_locations locations_data)
          = preprocess_locations locations_data) := by
  refine ⟨orderedOf_orderedOf, ?_⟩
  intro locations_data
  unfold preprocess_locations
  rw [List.map_map]
  exact List.map_congr_left (fun r _ => orderedOf_orderedOf r)

/-! ### Ingestion (claim C7) -/

theorem pyBind_ok {α β : Type} (a : α) (f : α → Except PyError β) :
    (Except.ok a : Except PyError α) >>= f = f a := rfl

theorem pyBind_error {α β : Type} (e : PyError) (f : α → Except PyError β) :
    (Except.error e : Except PyError α) >>= f = Except.error e := rfl

theorem preprocessItems_error (elems : List Json)
    (h : elems.all isObjJ = false) :
    ∃ err, preprocessItems elems = .error err := by
  induction elems with
  | nil => simp at h
  | cons x xs ih =>
      cases x with
      | obj fields =>
          simp only [List.all_cons, isObjJ, Bool.true_and] at h
          obtain ⟨err, herr⟩ := ih h
          exact ⟨err, by
            simp only [preprocessItems, recOfJson, pyBind_ok, herr, pyBind_error]⟩
      | str s => exact ⟨.attributeError, rfl⟩
      | num r => exact ⟨.attributeError, rfl⟩
      | bool b => exact ⟨.attributeError, rfl⟩
      | null => exact ⟨.attributeError, rfl⟩
      | arr es => exact ⟨.attributeError, rfl⟩

/-- C7 counterexample: the upload `{}` (the empty JSON object) is valid
JSON but not a list of objects, yet the run surfaces no parse error: it
proceeds with zero records, issues no remote call, and produces a
downloadable artifact (the empty list). -/
theorem C7_counterexample :
    wellFormedUpload (Json.obj []) = false
    ∧ mainFlow envBlank (Except.ok (Json.obj []))
        = MainOutcome.done [] [] :=
  ⟨rfl, rfl⟩

/-- Modelled from the amended claim's words: a parsed upload that iterates
to no elements — the empty object or the empty string.  Any other
wrong-shaped value crashes in the preprocessing loop. -/
def emptyIterUpload : Json → Bool
  | .obj fields => fields.isEmpty
  | .str s => s.data.isEmpty
  | _ => false

/-- C7 (amended): an upload that is not syntactically valid JSON surfaces a
user-visible parse error and the run aborts with no remote call and no
artifact.  An upload that parses but is not a list of objects issues no
remote call either, but it does not surface a parse error: it aborts with
an uncaught exception (and no artifact) in every case except a parsed
value that iterates to no elements — the empty object or the empty
string — which proceeds as a zero-record batch and produces an artifact
containing the empty list. -/
theorem C7_ingestion_amended (env : GeoEnv) (j : Json) (msg : String) :
    (mainFlow env (Except.error msg) = MainOutcome.parseError)
    ∧ (wellFormedUpload j = false →
        mainFlow env (Except.ok j)
          = if emptyIterUpload j then MainOutcome.done [] []
            else MainOutcome.crashed) := by
  refine ⟨rfl, ?_⟩
  intro hwf
  cases j with
  | arr elems =>
      obtain ⟨err, herr⟩ :=
        preprocessItems_error elems (by simpa [wellFormedUpload] using hwf)
      simp [mainFlow, preprocessJson, pyIter, pyBind_ok, herr, emptyIterUpload]
  | obj fields =>
      cases fields with
      | nil => rfl
      | cons kv rest => rfl
  | str s =>
      cases hs : s.data with
      | nil =>
          simp only [mainFlow, preprocessJson, pyIter, emptyIterUpload, hs]
          rfl
      | cons c cs =>
          simp only [mainFlow, preprocessJson, pyIter, emptyIterUpload, hs]
          rfl
  | num r => rfl
  | bool b => rfl
  | null => rfl

/-- Witness for the amended C7 at a concrete environment and uploads: an
invalid-JSON upload, a crashing wrong-shaped upload and an empty-object
upload. -/
theorem C7_ingestion_amended_witness :
    ((mainFlow envBlank (Except.error "bad") = MainOutcome.parseError)
     ∧ (mainFlow envBlank (Except.ok (Json.num "5"))
         = if emptyIterUpload (Json.num "5") then MainOutcome.done [] []
           else MainOutcome.crashed))
    ∧ (mainFlow envBlank (Except.ok (Json.obj []))
        = if emptyIterUpload (Json.obj []) then MainOutcome.done [] []
          else MainOutcome.crashed) :=
  ⟨⟨(C7_ingestion_amended envBlank (Json.num "5") "bad").1,
    (C7_ingestion_amended envBlank (Json.num "5") "bad").2 rfl⟩,
   (C7_ingestion_amended envBlank (Json.obj []) "bad").2 rfl⟩

/-! ### Decimal numerals (claim C2) -/

theorem char_ofNat_digit_toNat (d : Nat) (hd : d < 10) :
    (Char.ofNat (48 + d)).toNat = 48 + d := by
  interval_cases d <;> decide

theorem char_ofNat_digit_isDigit (d : Nat) (hd : d < 10) :
    (Char.ofNat (48 + d)).isDigit = true := by
  interval_cases d <;> decide

theorem pyIntL_append_digit (l : List Char) (c : Char) :
    pyIntL (l ++ [c]) = 10 * pyIntL l + (c.toNat - 48) := by
  simp [pyIntL, List.foldl_append]

theorem pyIntL_natReprL (n : Nat) : pyIntL (natReprL n) = n := by
  induction n using Nat.strong_induction_on with
  | _ n ih =>
      unfold natReprL
      split
      · next h =>
          simp only [pyIntL, List.foldl_cons, List.foldl_nil]
          rw [char_ofNat_digit_toNat n h]
          omega
      · next h =>
          rw [pyIntL_append_digit,
            ih (n / 10) (Nat.div_lt_self (by omega) (by omega)),
            char_ofNat_digit_toNat (n % 10) (Nat.mod_lt _ (by omega))]
          omega

theorem natReprL_all_digits (n : Nat) :
    (natReprL n).all Char.isDigit = true := by
  induction n using Nat.strong_induction_on with
  | _ n ih =>
      unfold natReprL
      split
      · next h => simp [char_ofNat_digit_isDigit n h]
      · next h =>
          simp [List.all_append,
            ih (n / 10) (Nat.div_lt_self (by omega) (by omega)),
            char_ofNat_digit_isDigit (n % 10) (Nat.mod_lt _ (by omega))]

theorem natReprL_ne_nil (n : Nat) : natReprL n ≠ [] := by
  unfold natReprL
  split
  · simp
  · simp

theorem pyDigits_natRepr (n : Nat) : pyDigits (natRepr n) = true := by
  show (!(natReprL n).isEmpty && (natReprL n).all Char.isDigit) = true
  rw [natReprL_all_digits]
  cases hn : natReprL n with
  | nil => exact absurd hn (natReprL_ne_nil n)
  | cons c cs => rfl

theorem pyInt_natRepr (n : Nat) : pyInt (natRepr n) = n := pyIntL_natReprL n

theorem natRepr_inj (a b : Nat) (h : natRepr a = natRepr b) : a = b := by
  have h2 := congrArg pyInt h
  rwa [pyInt_natRepr, pyInt_natRepr] at h2

/-! ### `assign_ids` (claim C2) -/

theorem maxStep_ge (a : Nat) (x : Rec) : a ≤ maxStep a x := by
  unfold maxStep
  split
  · split
    · exact Nat.le_max_left _ _
    · exact Nat.le_refl _
  · exact Nat.le_refl _

theorem le_foldl_maxStep (locs : List Rec) (a : Nat) :
    a ≤ List.foldl maxStep a locs := by
  induction locs generalizing a with
  | nil => exact Nat.le_refl _
  | cons x xs ih =>
      exact le_trans (maxStep_ge a x) (ih (maxStep a x))

theorem isDigitId_str (v : Json) (h : isDigitId v = true) :
    ∃ t, v = .str t ∧ pyDigits t = true := by
  cases v <;> simp [isDigitId] at h ⊢
  exact h

theorem keptIds_cons_digit (x : Rec) (xs : List Rec) (t : String)
    (ht : dictGet x "id" (Json.str "") = .str t) (htd : pyDigits t = true) :
    keptIds (x :: xs) = t :: keptIds xs := by
  simp [keptIds, List.filterMap_cons, ht, htd]

theorem keptIds_cons_nondigit (x : Rec) (xs : List Rec)
    (h : isDigitId (dictGet x "id" (Json.str "")) = false) :
    keptIds (x :: xs) = keptIds xs := by
  cases hM : dictGet x "id" (Json.str "") with
  | str t =>
      rw [hM] at h
      simp only [isDigitId] at h
      simp [keptIds, List.filterMap_cons, hM, h]
  | num r => simp [keptIds, List.filterMap_cons, hM]
  | bool b => simp [keptIds, List.filterMap_cons, hM]
  | null => simp [keptIds, List.filterMap_cons, hM]
  | arr es => simp [keptIds, List.filterMap_cons, hM]
  | obj fs => simp [keptIds, List.filterMap_cons, hM]

theorem keptIds_le_foldl (locs : List Rec) (a : Nat) (s : String)
    (hs : s ∈ keptIds locs) : pyInt s ≤ List.foldl maxStep a locs := by
  induction locs generalizing a with
  | nil => simp [keptIds] at hs
  | cons x xs ih =>
      rw [List.foldl_cons]
      by_cases hdig : isDigitId (dictGet x "id" (Json.str "")) = true
      · obtain ⟨t, ht, htd⟩ := isDigitId_str _ hdig
        rw [keptIds_cons_digit x xs t ht htd] at hs
        rcases List.mem_cons.mp hs with h | h
        · subst h
          refine le_trans ?_ (le_foldl_maxStep xs (maxStep a x))
          have hstep : maxStep a x = max a (pyInt s) := by
            unfold maxStep
            rw [ht]
            simp [htd]
          rw [hstep]
          exact Nat.le_max_right _ _
        · exact ih (maxStep a x) h
      · rw [keptIds_cons_nondigit x xs (Bool.not_eq_true _ ▸ hdig)] at hs
        exact ih (maxStep a x) hs

theorem keptIds_le_maxKeptId (locs : List Rec) (s : String)
    (hs : s ∈ keptIds locs) : pyInt s ≤ maxKeptId locs :=
  keptIds_le_foldl locs 0 s hs

theorem foldl_maxStep_no_kept (locs : List Rec) (a : Nat)
    (h : keptIds locs = []) : List.foldl maxStep a locs = a := by
  induction locs generalizing a with
  | nil => rfl
  | cons x xs ih =>
      by_cases hdig : isDigitId (dictGet x "id" (Json.str "")) = true
      · obtain ⟨t, ht, htd⟩ := isDigitId_str _ hdig
        rw [keptIds_cons_digit x xs t ht htd] at h
        exact absurd h (List.cons_ne_nil _ _)
      · have h2 := keptIds_cons_nondigit x xs (Bool.not_eq_true _ ▸ hdig)
        rw [h2] at h
        rw [List.foldl_cons]
        have hstep : maxStep a x = a := by
          unfold maxStep
          cases hM : dictGet x "id" (Json.str "") with
          | str t =>
              rw [hM] at hdig
              simp only [isDigitId] at hdig
              simp [hdig]
          | num r => rfl
          | bool b => rfl
          | null => rfl
          | arr es => rfl
          | obj fs => rfl
        rw [hstep]
        exact ih a h

theorem assignIdsAux_cons_digit (x : Rec) (xs : List Rec) (next : Nat)
    (h : isDigitId (dictGet x "id" (Json.str "")) = true) :
    assignIdsAux (x :: xs) next = x :: assignIdsAux xs next := by
  simp only [assignIdsAux]
  rw [if_pos h]

theorem assignIdsAux_cons_nondigit (x : Rec) (xs : List Rec) (next : Nat)
    (h : ¬ isDigitId (dictGet x "id" (Json.str "")) = true) :
    assignIdsAux (x :: xs) next
      = dictSet x "id" (.str (natRepr next)) :: assignIdsAux xs (next + 1) := by
  simp only [assignIdsAux]
  rw [if_neg h]

theorem assignIdsAux_length (locs : List Rec) (next : Nat) :
    (assignIdsAux locs next).length = locs.length := by
  induction locs generalizing next with
  | nil => rfl
  | cons x xs ih =>
      by_cases hdig : isDigitId (dictGet x "id" (Json.str "")) = true
      · rw [assignIdsAux_cons_digit x xs next hdig]
        simp [ih]
      · rw [assignIdsAux_cons_nondigit x xs next hdig]
        simp [ih]

theorem assignIdsAux_getElem (locs : List Rec) (next i : Nat) :
    (assignIdsAux locs next)[i]? =
      (locs[i]?).map (fun loc =>
        if isDigitId (dictGet loc "id" (.str "")) then loc
        else dictSet loc "id"
          (.str (natRepr (next + (locs.take i).countP needsId)))) := by
  induction locs generalizing next i with
  | nil => simp [assignIdsAux]
  | cons x xs ih =>
      by_cases hdig : isDigitId (dictGet x "id" (Json.str "")) = true
      · rw [assignIdsAux_cons_digit x xs next hdig]
        cases i with
        | zero => simp [hdig]
        | succ i =>
            rw [List.getElem?_cons_succ, List.getElem?_cons_succ, ih]
            have harith : next + (xs.take i).countP needsId
                = next + ((x :: xs).take (i + 1)).countP needsId := by
              rw [List.take_succ_cons, List.countP_cons]
              simp [needsId, hdig]
            cases hx : xs[i]? with
            | none => rfl
            | some loc =>
                simp only [Option.map_some']
                rw [← harith]
      · rw [assignIdsAux_cons_nondigit x xs next hdig]
        cases i with
        | zero => simp [hdig]
        | succ i =>
            rw [List.getElem?_cons_succ, List.getElem?_cons_succ, ih]
            have harith : next + 1 + (xs.take i).countP needsId
                = next + ((x :: xs).take (i + 1)).countP needsId := by
              rw [List.take_succ_cons, List.countP_cons]
              have hnx : needsId x = true := by
                simp [needsId, Bool.not_eq_true _ ▸ hdig]
              rw [hnx, if_pos rfl]
              omega
            cases hx : xs[i]? with
            | none => rfl
            | some loc =>
                simp only [Option.map_some']
                rw [← harith]

theorem idStrings_assignIdsAux_mem (locs : List Rec) (next : Nat) (s : String)
    (hs : s ∈ idStrings (assignIdsAux locs next)) :
    s ∈ keptIds locs ∨ ∃ m, next ≤ m ∧ s = natRepr m := by
  induction locs generalizing next with
  | nil => simp [idStrings, assignIdsAux] at hs
  | cons x xs ih =>
      by_cases hdig : isDigitId (dictGet x "id" (Json.str "")) = true
      · obtain ⟨t, ht, htd⟩ := isDigitId_str _ hdig
        rw [assignIdsAux_cons_digit x xs next hdig] at hs
        simp only [idStrings, List.map_cons, List.mem_cons] at hs
        rcases hs with h | h
        · left
          rw [keptIds_cons_digit x xs t ht htd]
          rw [ht] at h
          simp only [pyStr] at h
          simp [h]
        · rcases ih next (by simpa [idStrings] using h) with hk | hnew
          · left
            rw [keptIds_cons_digit x xs t ht htd]
            exact List.mem_cons_of_mem _ hk
          · right
            exact hnew
      · rw [assignIdsAux_cons_nondigit x xs next hdig] at hs
        simp only [idStrings, List.map_cons, List.mem_cons] at hs
        rcases hs with h | h
        · right
          refine ⟨next, Nat.le_refl _, ?_⟩
          rw [dictGet_dictSet_self] at h
          simpa [pyStr] using h
        · rcases ih (next + 1) (by simpa [idStrings] using h)
            with hk | ⟨m, hm, hsm⟩
          · left
            rwa [keptIds_cons_nondigit x xs (by simpa using hdig)]
          · right
            exact ⟨m, le_trans (Nat.le_succ _) hm, hsm⟩

theorem assignIdsAux_ids_digit (locs : List Rec) (next : Nat) :
    ∀ loc ∈ assignIdsAux locs next,
      isDigitId (dictGet loc "id" (.str "")) = true := by
  induction locs generalizing next with
  | nil => simp [assignIdsAux]
  | cons x xs ih =>
      intro loc hloc
      by_cases hdig : isDigitId (dictGet x "id" (Json.str "")) = true
      · rw [assignIdsAux_cons_digit x xs next hdig] at hloc
        rcases List.mem_cons.mp hloc with h | h
        · rw [h]
          exact hdig
        · exact ih next loc h
      · rw [assignIdsAux_cons_nondigit x xs next hdig] at hloc
        rcases List.mem_cons.mp hloc with h | h
        · rw [h, dictGet_dictSet_self]
          simpa [isDigitId] using pyDigits_natRepr next
        · exact ih (next + 1) loc h

theorem idStrings_assignIdsAux_nodup (locs : List Rec) (next : Nat)
    (hnd : (keptIds locs).Nodup)
    (hb : ∀ s ∈ keptIds locs, pyInt s < next) :
    (idStrings (assignIdsAux locs next)).Nodup := by
  induction locs generalizing next with
  | nil => simp [idStrings, assignIdsAux]
  | cons x xs ih =>
      by_cases hdig : isDigitId (dictGet x "id" (Json.str "")) = true
      · obtain ⟨t, ht, htd⟩ := isDigitId_str _ hdig
        rw [assignIdsAux_cons_digit x xs next hdig]
        simp only [idStrings, List.map_cons]
        rw [List.nodup_cons]
        rw [keptIds_cons_digit x xs t ht htd] at hnd hb
        constructor
        · rw [ht]
          intro hmem
          rcases idStrings_assignIdsAux_mem xs next _ hmem
            with hk | ⟨m, hm, heq⟩
          · exact (List.nodup_cons.mp hnd).1 (by simpa [pyStr] using hk)
          · have hlt := hb t (List.mem_cons_self _ _)
            simp only [pyStr] at heq
            rw [heq, pyInt_natRepr] at hlt
            omega
        · exact ih next (List.nodup_cons.mp hnd).2
            (fun s hsk => hb s (List.mem_cons_of_mem _ hsk))
      · rw [assignIdsAux_cons_nondigit x xs next hdig]
        simp only [idStrings, List.map_cons]
        rw [List.nodup_cons]
        rw [keptIds_cons_nondigit x xs (by simpa using hdig)] at hnd hb
        constructor
        · rw [dictGet_dictSet_self]
          intro hmem
          rcases idStrings_assignIdsAux_mem xs (next + 1) _ hmem
            with hk | ⟨m, hm, heq⟩
          · have hlt := hb _ hk
            simp only [pyStr] at hlt
            rw [pyInt_natRepr] at hlt
            omega
          · simp only [pyStr] at heq
            have := natRepr_inj _ _ heq
            omega
        · exact ih (next + 1) hnd
            (fun s hsk => lt_trans (hb s hsk) (Nat.lt_succ_self _))

/-- C2 counterexample: a batch in which two records both carry the
pre-existing id `"5"`.  `assign_ids` keeps both unchanged, so after
assignment the batch does not have unique ids, contrary to the claim's
unconditional uniqueness. -/
theorem C2_counterexample :
    idStrings (assign_ids [[("id", Json.str "5")], [("id", Json.str "5")]])
      = ["5", "5"]
    ∧ ¬ (["5", "5"] : List String).Nodup :=
  ⟨rfl, by decide⟩

/-- C2 (amended): `assign_ids` keeps every record whose id is a
digit-string unchanged and gives each other record, sequentially in input
order, the id `str(max_kept + 1 + number of earlier reassigned records)`
(so assignment starts at 1 when no record has a valid integer id, since
`max_kept` is then 0); afterwards every record has a digit-string id and
every newly assigned id is strictly greater than the largest pre-existing
valid integer id.  Uniqueness of the ids within the batch holds provided
the pre-existing valid integer-id strings are pairwise distinct (duplicate
pre-existing ids are kept as they are). -/
theorem C2_assign_ids_amended (locations : List Rec)
    (hids : idsStringValued locations = true) :
    ((assign_ids locations).length = locations.length)
    ∧ (∀ i : Nat, ∀ loc, locations[i]? = some loc →
        isDigitId (dictGet loc "id" (.str "")) = true →
        (assign_ids locations)[i]? = some loc)
    ∧ (∀ i : Nat, ∀ loc, locations[i]? = some loc →
        isDigitId (dictGet loc "id" (.str "")) = false →
        (assign_ids locations)[i]? = some (dictSet loc "id"
          (.str (natRepr (maxKeptId locations + 1 +
            (locations.take i).countP needsId)))))
    ∧ (keptIds locations = [] → maxKeptId locations = 0)
    ∧ (∀ loc ∈ assign_ids locations,
        isDigitId (dictGet loc "id" (.str "")) = true)
    ∧ (∀ i : Nat, ∀ loc, locations[i]? = some loc →
        isDigitId (dictGet loc "id" (.str "")) = false →
        ∀ loc2, (assign_ids locations)[i]? = some loc2 →
          maxKeptId locations
            < pyInt (pyStr (dictGet loc2 "id" (.str ""))))
    ∧ ((keptIds locations).Nodup →
        (idStrings (assign_ids locations)).Nodup) := by
  refine ⟨assignIdsAux_length locations _, ?_, ?_, ?_, ?_, ?_, ?_⟩
  · intro i loc hloc hdig
    rw [assign_ids, assignIdsAux_getElem, hloc]
    simp [hdig]
  · intro i loc hloc hdig
    rw [assign_ids, assignIdsAux_getElem, hloc]
    simp [hdig]
  · intro h
    exact foldl_maxStep_no_kept locations 0 h
  · exact assignIdsAux_ids_digit locations _
  · intro i loc hloc hdig loc2 hloc2
    rw [assign_ids, assignIdsAux_getElem, hloc] at hloc2
    simp only [Option.map_some', hdig, Bool.false_eq_true, if_false,
      Option.some.injEq] at hloc2
    rw [← hloc2, dictGet_dictSet_self]
    simp only [pyStr]
    rw [pyInt_natRepr]
    omega
  · intro hnd
    exact idStrings_assignIdsAux_nodup locations _ hnd
      (fun s hsk => Nat.lt_succ_of_le (keptIds_le_maxKeptId locations s hsk))

/-- The concrete batch used by the C2 witness: one kept digit id, one
record marked for reassignment. -/
def batchW : List Rec := [[("id", Json.str "5")], [("name", Json.str "B")]]

/-- Witness for the amended C2 at a concrete batch. -/
theorem C2_assign_ids_amended_witness :
    (idsStringValued batchW = true)
    ∧ (((assign_ids batchW).length = batchW.length)
       ∧ (∀ i : Nat, ∀ loc, batchW[i]? = some loc →
           isDigitId (dictGet loc "id" (.str "")) = true →
           (assign_ids batchW)[i]? = some loc)
       ∧ (∀ i : Nat, ∀ loc, batchW[i]? = some loc →
           isDigitId (dictGet loc "id" (.str "")) = false →
           (assign_ids batchW)[i]? = some (dictSet loc "id"
             (.str (natRepr (maxKeptId batchW + 1 +
               (batchW.take i).countP needsId)))))
       ∧ (keptIds batchW = [] → maxKeptId batchW = 0)
       ∧ (∀ loc ∈ assign_ids batchW,
           isDigitId (dictGet loc "id" (.str "")) = true)
       ∧ (∀ i : Nat, ∀ loc, batchW[i]? = some loc →
           isDigitId (dictGet loc "id" (.str "")) = false →
           ∀ loc2, (assign_ids batchW)[i]? = some loc2 →
             maxKeptId batchW
               < pyInt (pyStr (dictGet loc2 "id" (.str ""))))
       ∧ ((keptIds batchW).Nodup →
           (idStrings (assign_ids batchW)).Nodup)) :=
  ⟨rfl, C2_assign_ids_amended batchW rfl⟩

/-! ### Enrichment step lemmas -/

theorem update_fst (env : GeoEnv) (location : Rec) :
    (update_location_info env location).1
      = postSteps ((placeStep env (geocodeStep env location).1
          (pyStr (dictGet location "name" (.str "")))
          (pyStr (dictGet location "city" (.str "")))
          (pyStr (dictGet location "state" (.str "")))).1) := rfl

theorem update_snd (env : GeoEnv) (location : Rec) :
    (update_location_info env location).2
      = (geocodeStep env location).2
        ++ (placeStep env (geocodeStep env location).1
          (pyStr (dictGet location "name" (.str "")))
          (pyStr (dictGet location "city" (.str "")))
          (pyStr (dictGet location "state" (.str "")))).2 := rfl

theorem geocodeStep_skip (env : GeoEnv) (location : Rec)
    (h1 : truthyOpt (alookup location "lat") = true)
    (h2 : truthyOpt (alookup location "lng") = true) :
    geocodeStep env location = (location, []) := by
  unfold geocodeStep
  rw [if_neg]
  simp [h1, h2]

theorem geocodeStep_some (env : GeoEnv) (location : Rec) (la lo : String)
    (hcond : (!truthyOpt (alookup location "lat")
        || !truthyOpt (alookup location "lng")) = true)
    (hg : env.geocode (fullAddress location) = some (la, lo)) :
    geocodeStep env location
      = (dictSet (dictSet location "lat" (.num la)) "lng" (.num lo),
         [ApiCall.geocode (fullAddress location)]) := by
  unfold geocodeStep
  rw [if_pos hcond]
  dsimp only
  rw [hg]

theorem geocodeStep_none_fst (env : GeoEnv) (location : Rec)
    (hg : env.geocode (fullAddress location) = none) :
    (geocodeStep env location).1 = location := by
  unfold geocodeStep
  split
  · dsimp only
    rw [hg]
  · rfl

theorem geocodeStep_frame (env : GeoEnv) (location : Rec) (k : String)
    (h1 : k ≠ "lat") (h2 : k ≠ "lng") :
    alookup (geocodeStep env location).1 k = alookup location k := by
  unfold geocodeStep
  split
  · dsimp only
    cases hg : env.geocode (fullAddress location) with
    | none => rfl
    | some p =>
        obtain ⟨la, lo⟩ := p
        show alookup (dictSet (dictSet location "lat" (.num la)) "lng" (.num lo)) k
          = alookup location k
        rw [alookup_dictSet_ne _ _ _ _ h2, alookup_dictSet_ne _ _ _ _ h1]
  · rfl

theorem geocodeStep_frame_get (env : GeoEnv) (location : Rec) (k : String)
    (dflt : Json) (h1 : k ≠ "lat") (h2 : k ≠ "lng") :
    dictGet (geocodeStep env location).1 k dflt = dictGet location k dflt := by
  unfold dictGet
  rw [geocodeStep_frame env location k h1 h2]

theorem geocodeStep_calls (env : GeoEnv) (location : Rec) :
    (geocodeStep env location).2 = []
    ∨ (geocodeStep env location).2 = [ApiCall.geocode (fullAddress location)] := by
  unfold geocodeStep
  split
  · dsimp only
    cases hg : env.geocode (fullAddress location) with
    | none =>
        right
        rfl
    | some p =>
        obtain ⟨la, lo⟩ := p
        right
        rfl
  · left
    rfl

/-- The street address the merge composes (lines 171-190). -/
def mergedStreet (d : PlaceDetails) : String :=
  joinFiltered " "
    [(extractComponents (d.address_components.getD [])).street_number,
     (extractComponents (d.address_components.getD [])).route]

theorem detailsMerge_address (location : Rec) (d : PlaceDetails) :
    alookup (detailsMerge location d) "address"
      = some (if mergedStreet d ≠ "" then .str (mergedStreet d)
              else dictGet location "address" (.str "")) := by
  simp only [detailsMerge, mergedStreet]
  cases hwt : weekdayTextOf d <;>
    dsimp only <;>
    rw [alookup_dictSet_ne _ _ _ _ (by decide),
      alookup_dictSet_ne _ _ _ _ (by decide),
      alookup_dictSet_ne _ _ _ _ (by decide),
      alookup_dictSet_ne _ _ _ _ (by decide),
      alookup_dictSet_ne _ _ _ _ (by decide),
      alookup_dictSet_ne _ _ _ _ (by decide),
      alookup_dictSet_self]

theorem detailsMerge_city (location : Rec) (d : PlaceDetails) :
    alookup (detailsMerge location d) "city"
      = some (if (extractComponents (d.address_components.getD [])).city ≠ ""
              then .str (extractComponents (d.address_components.getD [])).city
              else dictGet location "city" (.str "")) := by
  simp only [detailsMerge]
  cases hwt : weekdayTextOf d <;>
    dsimp only <;>
    rw [alookup_dictSet_ne _ _ _ _ (by decide),
      alookup_dictSet_ne _ _ _ _ (by decide),
      alookup_dictSet_ne _ _ _ _ (by decide),
      alookup_dictSet_ne _ _ _ _ (by decide),
      alookup_dictSet_ne _ _ _ _ (by decide),
      alookup_dictSet_self,
      dictGet_dictSet_ne _ _ _ _ _ (by decide)]

theorem detailsMerge_state (location : Rec) (d : PlaceDetails) :
    alookup (detailsMerge location d) "state"
      = some (if (extractComponents (d.address_components.getD [])).state ≠ ""
              then .str (extractComponents (d.address_components.getD [])).state
              else dictGet location "state" (.str "")) := by
  simp only [detailsMerge]
  cases hwt : weekdayTextOf d <;>
    dsimp only <;>
    rw [alookup_dictSet_ne _ _ _ _ (by decide),
      alookup_dictSet_ne _ _ _ _ (by decide),
      alookup_dictSet_ne _ _ _ _ (by decide),
      alookup_dictSet_ne _ _ _ _ (by decide),
      alookup_dictSet_self,
      dictGet_dictSet_ne _ _ _ _ _ (by decide),
      dictGet_dictSet_ne _ _ _ _ _ (by decide)]

theorem detailsMerge_postal (location : Rec) (d : PlaceDetails) :
    alookup (detailsMerge location d) "postal"
      = some (if (extractComponents (d.address_components.getD [])).postal ≠ ""
              then .str (extractComponents (d.address_components.getD [])).postal
              else dictGet location "postal" (.str "")) := by
  simp only [detailsMerge]
  cases hwt : weekdayTextOf d <;>
    dsimp only <;>
    rw [alookup_dictSet_ne _ _ _ _ (by decide),
      alookup_dictSet_ne _ _ _ _ (by decide),
      alookup_dictSet_ne _ _ _ _ (by decide),
      alookup_dictSet_self,
      dictGet_dictSet_ne _ _ _ _ _ (by decide),
      dictGet_dictSet_ne _ _ _ _ _ (by decide),
      dictGet_dictSet_ne _ _ _ _ _ (by decide)]

theorem detailsMerge_phone (location : Rec) (d : PlaceDetails) :
    alookup (detailsMerge location d) "phone"
      = some (match d.formatted_phone_number with
              | some p => .str p
              | none => dictGet location "phone" (.str "")) := by
  simp only [detailsMerge]
  cases hwt : weekdayTextOf d <;>
    dsimp only <;>
    rw [alookup_dictSet_ne _ _ _ _ (by decide),
      alookup_dictSet_ne _ _ _ _ (by decide),
      alookup_dictSet_self,
      dictGet_dictSet_ne _ _ _ _ _ (by decide),
      dictGet_dictSet_ne _ _ _ _ _ (by decide),
      dictGet_dictSet_ne _ _ _ _ _ (by decide),
      dictGet_dictSet_ne _ _ _ _ _ (by decide)]

theorem detailsMerge_web (location : Rec) (d : PlaceDetails) :
    alookup (detailsMerge location d) "web"
      = some (match d.website with
              | some w => .str w
              | none => dictGet location "web" (.str "")) := by
  simp only [detailsMerge]
  cases hwt : weekdayTextOf d <;>
    dsimp only <;>
    rw [alookup_dictSet_ne _ _ _ _ (by decide),
      alookup_dictSet_self,
      dictGet_dictSet_ne _ _ _ _ _ (by decide),
      dictGet_dictSet_ne _ _ _ _ _ (by decide),
      dictGet_dictSet_ne _ _ _ _ _ (by decide),
      dictGet_dictSet_ne _ _ _ _ _ (by decide),
      dictGet_dictSet_ne _ _ _ _ _ (by decide)]

theorem detailsMerge_hours1 (location : Rec) (d : PlaceDetails) :
    alookup (detailsMerge location d) "hours1"
      = some (match weekdayTextOf d with
              | .list lines => .str (joinSep "\n" lines)
              | .nonlist => dictGet location "hours1" (.str "")) := by
  simp only [detailsMerge]
  cases hwt : weekdayTextOf d with
  | list lines =>
      dsimp only
      rw [alookup_dictSet_self]
  | nonlist =>
      dsimp only
      rw [alookup_dictSet_self,
        dictGet_dictSet_ne _ _ _ _ _ (by decide),
        dictGet_dictSet_ne _ _ _ _ _ (by decide),
        dictGet_dictSet_ne _ _ _ _ _ (by decide),
        dictGet_dictSet_ne _ _ _ _ _ (by decide),
        dictGet_dictSet_ne _ _ _ _ _ (by decide),
        dictGet_dictSet_ne _ _ _ _ _ (by decide)]

theorem detailsMerge_frame (location : Rec) (d : PlaceDetails) (k : String)
    (ha : k ≠ "address") (hc : k ≠ "city") (hs : k ≠ "state")
    (hp : k ≠ "postal") (hph : k ≠ "phone") (hw : k ≠ "web")
    (hh : k ≠ "hours1") :
    alookup (detailsMerge location d) k = alookup location k := by
  simp only [detailsMerge]
  cases hwt : weekdayTextOf d <;>
    dsimp only <;>
    rw [alookup_dictSet_ne _ _ _ _ hh,
      alookup_dictSet_ne _ _ _ _ hw,
      alookup_dictSet_ne _ _ _ _ hph,
      alookup_dictSet_ne _ _ _ _ hp,
      alookup_dictSet_ne _ _ _ _ hs,
      alookup_dictSet_ne _ _ _ _ hc,
      alookup_dictSet_ne _ _ _ _ ha]

theorem placeStep_none (env : GeoEnv) (location : Rec) (n c s : String)
    (h : env.find_place (n ++ " in " ++ c ++ ", " ++ s) = none) :
    placeStep env location n c s
      = (location, [ApiCall.findPlace (n ++ " in " ++ c ++ ", " ++ s)]) := by
  simp only [placeStep, find_place]
  rw [h]

theorem placeStep_merge (env : GeoEnv) (location : Rec) (n c s : String)
    (candidate : Rec) (pid_v : Json) (d : PlaceDetails)
    (hfp : env.find_place (n ++ " in " ++ c ++ ", " ++ s) = some candidate)
    (hne : candidate.isEmpty = false)
    (hpid : alookup candidate "place_id" = some pid_v)
    (hpt : truthy pid_v = true)
    (hpd : env.place (pyStr pid_v) = some d) :
    (placeStep env location n c s).1 = detailsMerge location d := by
  simp only [placeStep, find_place, get_place_details, hfp, hne, hpid,
    Bool.false_eq_true, if_false]
  rw [if_pos hpt, hpd]

theorem placeStep_cases (env : GeoEnv) (location : Rec) (n c s : String) :
    (placeStep env location n c s).1 = location
    ∨ ∃ d, (placeStep env location n c s).1 = detailsMerge location d := by
  simp only [placeStep, find_place, get_place_details]
  cases hfp : env.find_place (n ++ " in " ++ c ++ ", " ++ s) with
  | none => left; rfl
  | some candidate =>
      dsimp only
      cases hne : candidate.isEmpty with
      | true => left; rfl
      | false =>
          simp only [Bool.false_eq_true, if_false]
          cases hpid : alookup candidate "place_id" with
          | none => left; rfl
          | some pid_v =>
              dsimp only
              by_cases hpt : truthy pid_v = true
              · rw [if_pos hpt]
                cases hpd : env.place (pyStr pid_v) with
                | none => left; rfl
                | some d => right; exact ⟨d, rfl⟩
              · rw [if_neg hpt]
                left
                rfl

theorem placeStep_frame (env : GeoEnv) (location : Rec) (n c s k : String)
    (ha : k ≠ "address") (hc : k ≠ "city") (hs : k ≠ "state")
    (hp : k ≠ "postal") (hph : k ≠ "phone") (hw : k ≠ "web")
    (hh : k ≠ "hours1") :
    alookup (placeStep env location n c s).1 k = alookup location k := by
  rcases placeStep_cases env location n c s with h | ⟨d, h⟩
  · rw [h]
  · rw [h, detailsMerge_frame location d k ha hc hs hp hph hw hh]

theorem placeStep_calls (env : GeoEnv) (location : Rec) (n c s : String) :
    (placeStep env location n c s).2
        = [ApiCall.findPlace (n ++ " in " ++ c ++ ", " ++ s)]
    ∨ ∃ p, (placeStep env location n c s).2
        = [ApiCall.findPlace (n ++ " in " ++ c ++ ", " ++ s),
           ApiCall.placeDetails p] := by
  simp only [placeStep, find_place, get_place_details]
  cases hfp : env.find_place (n ++ " in " ++ c ++ ", " ++ s) with
  | none => left; rfl
  | some candidate =>
      dsimp only
      cases hne : candidate.isEmpty with
      | true => left; rfl
      | false =>
          simp only [Bool.false_eq_true, if_false]
          cases hpid : alookup candidate "place_id" with
          | none => left; rfl
          | some pid_v =>
              dsimp only
              by_cases hpt : truthy pid_v = true
              · rw [if_pos hpt]
                cases hpd : env.place (pyStr pid_v) with
                | none => right; exact ⟨pyStr pid_v, rfl⟩
                | some d => right; exact ⟨pyStr pid_v, rfl⟩
              · rw [if_neg hpt]
                left
                rfl

theorem postSteps_field (location : Rec) (k : String)
    (hk : k ∈ EXPECTED_FIELDS) (h1 : k ≠ "lat") (h2 : k ≠ "lng")
    (h3 : k ≠ "featured") :
    alookup (postSteps location) k = some (dictGet location k (.str "")) := by
  simp only [postSteps]
  rw [alookup_orderedOf _ _ hk]
  congr 1
  split
  · rw [dictGet_dictSet_ne _ _ _ _ _ h2, dictGet_dictSet_ne _ _ _ _ _ h1]
  · rw [dictGet_dictSet_ne _ _ _ _ _ h3, dictGet_dictSet_ne _ _ _ _ _ h2,
      dictGet_dictSet_ne _ _ _ _ _ h1]

theorem postSteps_lat (location : Rec) :
    alookup (postSteps location) "lat"
      = some (.str (pyStr (dictGet location "lat" (.str "")))) := by
  simp only [postSteps]
  rw [alookup_orderedOf _ _ (by decide)]
  congr 1
  split
  · rw [dictGet_dictSet_ne _ _ _ _ _ (by decide), dictGet_dictSet_self]
  · rw [dictGet_dictSet_ne _ _ _ _ _ (by decide),
      dictGet_dictSet_ne _ _ _ _ _ (by decide), dictGet_dictSet_self]

theorem postSteps_lng (location : Rec) :
    alookup (postSteps location) "lng"
      = some (.str (pyStr (dictGet location "lng" (.str "")))) := by
  simp only [postSteps]
  rw [alookup_orderedOf _ _ (by decide)]
  congr 1
  split
  · rw [dictGet_dictSet_self, dictGet_dictSet_ne _ _ _ _ _ (by decide)]
  · rw [dictGet_dictSet_ne _ _ _ _ _ (by decide), dictGet_dictSet_self,
      dictGet_dictSet_ne _ _ _ _ _ (by decide)]

theorem postSteps_featured (location : Rec) :
    alookup (postSteps location) "featured"
      = some (if truthyOpt (alookup location "featured")
              then dictGet location "featured" (.str "")
              else .str "no") := by
  simp only [postSteps]
  rw [alookup_orderedOf _ _ (by decide)]
  rw [alookup_dictSet_ne _ _ _ _ (by decide),
    alookup_dictSet_ne _ _ _ _ (by decide)]
  congr 1
  split
  · rw [dictGet_dictSet_ne _ _ _ _ _ (by decide),
      dictGet_dictSet_ne _ _ _ _ _ (by decide)]
  · rw [dictGet_dictSet_self]

theorem detailsMerge_address_get (location : Rec) (d : PlaceDetails) :
    dictGet (detailsMerge location d) "address" (.str "")
      = (if mergedStreet d ≠ "" then .str (mergedStreet d)
         else dictGet location "address" (.str "")) := by
  rw [dictGet, detailsMerge_address]
  rfl

theorem detailsMerge_city_get (location : Rec) (d : PlaceDetails) :
    dictGet (detailsMerge location d) "city" (.str "")
      = (if (extractComponents (d.address_components.getD [])).city ≠ ""
         then .str (extractComponents (d.address_components.getD [])).city
         else dictGet location "city" (.str "")) := by
  rw [dictGet, detailsMerge_city]
  rfl

theorem detailsMerge_state_get (location : Rec) (d : PlaceDetails) :
    dictGet (detailsMerge location d) "state" (.str "")
      = (if (extractComponents (d.address_components.getD [])).state ≠ ""
         then .str (extractComponents (d.address_components.getD [])).state
         else dictGet location "state" (.str "")) := by
  rw [dictGet, detailsMerge_state]
  rfl

theorem detailsMerge_postal_get (location : Rec) (d : PlaceDetails) :
    dictGet (detailsMerge location d) "postal" (.str "")
      = (if (extractComponents (d.address_components.getD [])).postal ≠ ""
         then .str (extractComponents (d.address_components.getD [])).postal
         else dictGet location "postal" (.str "")) := by
  rw [dictGet, detailsMerge_postal]
  rfl

theorem detailsMerge_phone_get (location : Rec) (d : PlaceDetails) :
    dictGet (detailsMerge location d) "phone" (.str "")
      = (match d.formatted_phone_number with
         | some p => .str p
         | none => dictGet location "phone" (.str "")) := by
  rw [dictGet, detailsMerge_phone]
  rfl

theorem detailsMerge_web_get (location : Rec) (d : PlaceDetails) :
    dictGet (detailsMerge location d) "web" (.str "")
      = (match d.website with
         | some w => .str w
         | none => dictGet location "web" (.str "")) := by
  rw [dictGet, detailsMerge_web]
  rfl

theorem detailsMerge_hours1_get (location : Rec) (d : PlaceDetails) :
    dictGet (detailsMerge location d) "hours1" (.str "")
      = (match weekdayTextOf d with
         | .list lines => .str (joinSep "\n" lines)
         | .nonlist => dictGet location "hours1" (.str "")) := by
  rw [dictGet, detailsMerge_hours1]
  rfl

theorem update_field_of_place_id (env : GeoEnv) (location : Rec) (f : String)
    (hf : f ∈ EXPECTED_FIELDS) (h1 : f ≠ "lat") (h2 : f ≠ "lng")
    (h3 : f ≠ "featured")
    (hps : (placeStep env (geocodeStep env location).1
        (pyStr (dictGet location "name" (.str "")))
        (pyStr (dictGet location "city" (.str "")))
        (pyStr (dictGet location "state" (.str "")))).1
      = (geocodeStep env location).1) :
    alookup ((update_location_info env location).1) f
      = some (dictGet location f (.str "")) := by
  rw [update_fst, hps, postSteps_field _ _ hf h1 h2 h3,
    geocodeStep_frame_get env location f (.str "") h1 h2]

theorem alookup_str_of_recStringValued (location : Rec) (k : String)
    (v : Json) (hrec : recStringValued location = true)
    (h : alookup location k = some v) : ∃ s, v = .str s := by
  have hmem := alookup_mem location k v h
  have hv := List.all_eq_true.mp hrec (k, v) hmem
  cases v with
  | str s => exact ⟨s, rfl⟩
  | num r => simp [isStr] at hv
  | bool b => simp [isStr] at hv
  | null => simp [isStr] at hv
  | arr es => simp [isStr] at hv
  | obj fs => simp [isStr] at hv

/-! ### Claims about `update_location_info` -/

/-- C5: when find-place returns no candidate for a record (also when the
call raised and was caught), the place-details fetch and the merge are
skipped: address, city, state, postal, phone, web and hours1 keep their
pre-enrichment values and no place-details call is issued. -/
theorem C5_findplace_none_frame (env : GeoEnv) (location : Rec)
    (hfp : env.find_place (findQuery location) = none) :
    (∀ f ∈ (["address", "city", "state", "postal", "phone", "web",
             "hours1"] : List String),
        alookup ((update_location_info env location).1) f
          = some (dictGet location f (.str "")))
    ∧ (∀ pid, ApiCall.placeDetails pid ∉ (update_location_info env location).2) := by
  have hps : (placeStep env (geocodeStep env location).1
      (pyStr (dictGet location "name" (.str "")))
      (pyStr (dictGet location "city" (.str "")))
      (pyStr (dictGet location "state" (.str "")))).1
      = (geocodeStep env location).1 := by
    rw [placeStep_none env _ _ _ _ hfp]
  constructor
  · intro f hf
    fin_cases hf <;>
      exact update_field_of_place_id env location _ (by decide) (by decide)
        (by decide) (by decide) hps
  · intro pid hmem
    rw [update_snd, placeStep_none env _ _ _ _ hfp] at hmem
    rcases geocodeStep_calls env location with hg | hg <;>
      rw [hg] at hmem <;> simp at hmem

/-- Witness for C5 at a concrete environment and record. -/
theorem C5_findplace_none_frame_witness :
    (∀ f ∈ (["address", "city", "state", "postal", "phone", "web",
             "hours1"] : List String),
        alookup ((update_location_info envBlank
            [("name", Json.str "Acme"), ("phone", Json.str "5")]).1) f
          = some (dictGet [("name", Json.str "Acme"), ("phone", Json.str "5")]
              f (.str "")))
    ∧ (∀ pid, ApiCall.placeDetails pid
        ∉ (update_location_info envBlank
            [("name", Json.str "Acme"), ("phone", Json.str "5")]).2) :=
  C5_findplace_none_frame envBlank
    [("name", Json.str "Acme"), ("phone", Json.str "5")] rfl

/-- C6: when lat and lng are both non-empty strings on input to enrichment,
no geocode call is issued for the record and both fields keep their input
values (the final string coercion is the identity on strings). -/
theorem C6_latlng_present_no_geocode (env : GeoEnv) (location : Rec)
    (slat slng : String)
    (hlat : alookup location "lat" = some (.str slat)) (hlat2 : slat ≠ "")
    (hlng : alookup location "lng" = some (.str slng)) (hlng2 : slng ≠ "") :
    (∀ a, ApiCall.geocode a ∉ (update_location_info env location).2)
    ∧ alookup ((update_location_info env location).1) "lat" = some (.str slat)
    ∧ alookup ((update_location_info env location).1) "lng" = some (.str slng) := by
  have ht1 : truthyOpt (alookup location "lat") = true := by
    rw [hlat]
    simp [truthyOpt, truthy, hlat2]
  have ht2 : truthyOpt (alookup location "lng") = true := by
    rw [hlng]
    simp [truthyOpt, truthy, hlng2]
  have hskip := geocodeStep_skip env location ht1 ht2
  have hskip1 : (geocodeStep env location).1 = location := congrArg Prod.fst hskip
  have hskip2 : (geocodeStep env location).2 = [] := congrArg Prod.snd hskip
  refine ⟨?_, ?_, ?_⟩
  · intro a hmem
    rw [update_snd, hskip2] at hmem
    rcases placeStep_calls env (geocodeStep env location).1
        (pyStr (dictGet location "name" (.str "")))
        (pyStr (dictGet location "city" (.str "")))
        (pyStr (dictGet location "state" (.str ""))) with hp | ⟨p, hp⟩ <;>
      rw [hp] at hmem <;> simp at hmem
  · rw [update_fst, postSteps_lat]
    unfold dictGet
    rw [placeStep_frame env _ _ _ _ "lat" (by decide) (by decide) (by decide)
        (by decide) (by decide) (by decide) (by decide), hskip1, hlat]
    rfl
  · rw [update_fst, postSteps_lng]
    unfold dictGet
    rw [placeStep_frame env _ _ _ _ "lng" (by decide) (by decide) (by decide)
        (by decide) (by decide) (by decide) (by decide), hskip1, hlng]
    rfl

/-- Witness for C6 at a concrete environment and record. -/
theorem C6_latlng_present_no_geocode_witness :
    (∀ a, ApiCall.geocode a
        ∉ (update_location_info envBlank
            [("lat", Json.str "1.5"), ("lng", Json.str "2.5")]).2)
    ∧ alookup ((update_location_info envBlank
        [("lat", Json.str "1.5"), ("lng", Json.str "2.5")]).1) "lat"
        = some (.str "1.5")
    ∧ alookup ((update_location_info envBlank
        [("lat", Json.str "1.5"), ("lng", Json.str "2.5")]).1) "lng"
        = some (.str "2.5") :=
  C6_latlng_present_no_geocode envBlank
    [("lat", Json.str "1.5"), ("lng", Json.str "2.5")]
    "1.5" "2.5" rfl (by decide) rfl (by decide)

/-- C10: when exactly one of lat and lng is falsy on input and the geocode
call returns a result, both are overwritten with the first result's
coordinates — the pre-existing non-empty one is replaced too. -/
theorem C10_geocode_overwrites_both (env : GeoEnv) (location : Rec)
    (la lo : String)
    (hone : (truthyOpt (alookup location "lat") = false
              ∧ truthyOpt (alookup location "lng") = true)
          ∨ (truthyOpt (alookup location "lat") = true
              ∧ truthyOpt (alookup location "lng") = false))
    (hg : env.geocode (fullAddress location) = some (la, lo)) :
    alookup ((update_location_info env location).1) "lat" = some (.str la)
    ∧ alookup ((update_location_info env location).1) "lng" = some (.str lo) := by
  have hcond : (!truthyOpt (alookup location "lat")
      || !truthyOpt (alookup location "lng")) = true := by
    rcases hone with ⟨h1, h2⟩ | ⟨h1, h2⟩ <;> simp [h1, h2]
  have hGe := geocodeStep_some env location la lo hcond hg
  have hG1 : (geocodeStep env location).1
      = dictSet (dictSet location "lat" (.num la)) "lng" (.num lo) :=
    congrArg Prod.fst hGe
  constructor
  · rw [update_fst, postSteps_lat]
    unfold dictGet
    rw [placeStep_frame env _ _ _ _ "lat" (by decide) (by decide) (by decide)
        (by decide) (by decide) (by decide) (by decide), hG1,
      alookup_dictSet_ne _ _ _ _ (by decide), alookup_dictSet_self]
    rfl
  · rw [update_fst, postSteps_lng]
    unfold dictGet
    rw [placeStep_frame env _ _ _ _ "lng" (by decide) (by decide) (by decide)
        (by decide) (by decide) (by decide) (by decide), hG1,
      alookup_dictSet_self]
    rfl

/-- The environment of the C10 witness: geocoding succeeds. -/
def envGeo : GeoEnv :=
  ⟨fun _ => some ("30.1", "-97.7"), fun _ => none, fun _ => none⟩

/-- Witness for C10 at a concrete environment and record (lat empty, lng
non-empty). -/
theorem C10_geocode_overwrites_both_witness :
    alookup ((update_location_info envGeo
        [("lng", Json.str "2.0"), ("address", Json.str "A St")]).1) "lat"
      = some (.str "30.1")
    ∧ alookup ((update_location_info envGeo
        [("lng", Json.str "2.0"), ("address", Json.str "A St")]).1) "lng"
      = some (.str "-97.7") :=
  C10_geocode_overwrites_both envGeo
    [("lng", Json.str "2.0"), ("address", Json.str "A St")]
    "30.1" "-97.7" (Or.inl ⟨rfl, by decide⟩) rfl

/-- C8: after enrichment lat and lng always hold strings; when lat (resp.
lng) was falsy and the geocode call returned nothing, that field is the
empty string; and `featured` is `"no"` whenever it was missing or empty
before the defaulting step. -/
theorem C8_output_coercions (env : GeoEnv) (location : Rec)
    (hrec : recStringValued location = true) :
    (∃ s, alookup ((update_location_info env location).1) "lat"
        = some (.str s))
    ∧ (∃ s, alookup ((update_location_info env location).1) "lng"
        = some (.str s))
    ∧ (truthyOpt (alookup location "featured") = false →
        alookup ((update_location_info env location).1) "featured"
          = some (.str "no"))
    ∧ (truthyOpt (alookup location "lat") = false →
        env.geocode (fullAddress location) = none →
        alookup ((update_location_info env location).1) "lat"
          = some (.str ""))
    ∧ (truthyOpt (alookup location "lng") = false →
        env.geocode (fullAddress location) = none →
        alookup ((update_location_info env location).1) "lng"
          = some (.str "")) := by
  refine ⟨?_, ?_, ?_, ?_, ?_⟩
  · rw [update_fst, postSteps_lat]
    exact ⟨_, rfl⟩
  · rw [update_fst, postSteps_lng]
    exact ⟨_, rfl⟩
  · intro hft
    rw [update_fst, postSteps_featured,
      placeStep_frame env _ _ _ _ "featured" (by decide) (by decide) (by decide)
        (by decide) (by decide) (by decide) (by decide),
      geocodeStep_frame env location "featured" (by decide) (by decide), hft]
    rfl
  · intro hlat0 hgnone
    rw [update_fst, postSteps_lat]
    unfold dictGet
    rw [placeStep_frame env _ _ _ _ "lat" (by decide) (by decide) (by decide)
        (by decide) (by decide) (by decide) (by decide),
      geocodeStep_none_fst env location hgnone]
    cases halat : alookup location "lat" with
    | none => rfl
    | some v =>
        obtain ⟨s, rfl⟩ :=
          alookup_str_of_recStringValued location "lat" v hrec halat
        have hs : s = "" := by
          rw [halat] at hlat0
          simpa [truthyOpt, truthy] using hlat0
        rw [hs]
        rfl
  · intro hlng0 hgnone
    rw [update_fst, postSteps_lng]
    unfold dictGet
    rw [placeStep_frame env _ _ _ _ "lng" (by decide) (by decide) (by decide)
        (by decide) (by decide) (by decide) (by decide),
      geocodeStep_none_fst env location hgnone]
    cases halng : alookup location "lng" with
    | none => rfl
    | some v =>
        obtain ⟨s, rfl⟩ :=
          alookup_str_of_recStringValued location "lng" v hrec halng
        have hs : s = "" := by
          rw [halng] at hlng0
          simpa [truthyOpt, truthy] using hlng0
        rw [hs]
        rfl

/-- Witness for C8 at a concrete environment and record (featured, lat and
lng all absent, geocoding returns nothing). -/
theorem C8_output_coercions_witness :
    (recStringValued [("name", Json.str "A"), ("city", Json.str "B")] = true)
    ∧ ((∃ s, alookup ((update_location_info envBlank
          [("name", Json.str "A"), ("city", Json.str "B")]).1) "lat"
          = some (.str s))
       ∧ (∃ s, alookup ((update_location_info envBlank
          [("name", Json.str "A"), ("city", Json.str "B")]).1) "lng"
          = some (.str s))
       ∧ (truthyOpt (alookup
            [("name", Json.str "A"), ("city", Json.str "B")] "featured")
              = false →
          alookup ((update_location_info envBlank
            [("name", Json.str "A"), ("city", Json.str "B")]).1) "featured"
            = some (.str "no"))
       ∧ (truthyOpt (alookup
            [("name", Json.str "A"), ("city", Json.str "B")] "lat") = false →
          envBlank.geocode (fullAddress
            [("name", Json.str "A"), ("city", Json.str "B")]) = none →
          alookup ((update_location_info envBlank
            [("name", Json.str "A"), ("city", Json.str "B")]).1) "lat"
            = some (.str ""))
       ∧ (truthyOpt (alookup
            [("name", Json.str "A"), ("city", Json.str "B")] "lng") = false →
          envBlank.geocode (fullAddress
            [("name", Json.str "A"), ("city", Json.str "B")]) = none →
          alookup ((update_location_info envBlank
            [("name", Json.str "A"), ("city", Json.str "B")]).1) "lng"
            = some (.str ""))) :=
  ⟨rfl, C8_output_coercions envBlank
    [("name", Json.str "A"), ("city", Json.str "B")] rfl⟩

theorem detailsMerge_frame_get (location : Rec) (d : PlaceDetails)
    (k : String) (dflt : Json)
    (ha : k ≠ "address") (hc : k ≠ "city") (hs : k ≠ "state")
    (hp : k ≠ "postal") (hph : k ≠ "phone") (hw : k ≠ "web")
    (hh : k ≠ "hours1") :
    dictGet (detailsMerge location d) k dflt = dictGet location k dflt := by
  unfold dictGet
  rw [detailsMerge_frame location d k ha hc hs hp hph hw hh]

/-- C3: in the field merge, for each of address, city, state and postal a
non-empty value extracted from the place-details address components
overwrites the record's prior field value, and an empty extracted value
never overwrites the prior value; the street address is the space-join of
street number and route, skipping empty parts. -/
theorem C3_merge_precedence (env : GeoEnv) (location : Rec)
    (candidate : Rec) (pid_v : Json) (d : PlaceDetails)
    (hfp : env.find_place (findQuery location) = some candidate)
    (hne : candidate.isEmpty = false)
    (hpid : alookup candidate "place_id" = some pid_v)
    (hpt : truthy pid_v = true)
    (hpd : env.place (pyStr pid_v) = some d) :
    (alookup ((update_location_info env location).1) "address"
      = some (if mergedStreet d ≠ "" then .str (mergedStreet d)
              else dictGet location "address" (.str "")))
    ∧ (alookup ((update_location_info env location).1) "city"
      = some (if (extractComponents (d.address_components.getD [])).city ≠ ""
              then .str (extractComponents (d.address_components.getD [])).city
              else dictGet location "city" (.str "")))
    ∧ (alookup ((update_location_info env location).1) "state"
      = some (if (extractComponents (d.address_components.getD [])).state ≠ ""
              then .str (extractComponents (d.address_components.getD [])).state
              else dictGet location "state" (.str "")))
    ∧ (alookup ((update_location_info env location).1) "postal"
      = some (if (extractComponents (d.address_components.getD [])).postal ≠ ""
              then .str (extractComponents (d.address_components.getD [])).postal
              else dictGet location "postal" (.str "")))
    ∧ mergedStreet d = joinFiltered " "
        [(extractComponents (d.address_components.getD [])).street_number,
         (extractComponents (d.address_components.getD [])).route] := by
  have hmerge : (placeStep env (geocodeStep env location).1
      (pyStr (dictGet location "name" (.str "")))
      (pyStr (dictGet location "city" (.str "")))
      (pyStr (dictGet location "state" (.str "")))).1
      = detailsMerge (geocodeStep env location).1 d :=
    placeStep_merge env (geocodeStep env location).1
      (pyStr (dictGet location "name" (.str "")))
      (pyStr (dictGet location "city" (.str "")))
      (pyStr (dictGet location "state" (.str "")))
      candidate pid_v d hfp hne hpid hpt hpd
  refine ⟨?_, ?_, ?_, ?_, rfl⟩
  · rw [update_fst, hmerge,
      postSteps_field _ _ (by decide) (by decide) (by decide) (by decide),
      detailsMerge_address_get,
      geocodeStep_frame_get env location "address" (.str "")
        (by decide) (by decide)]
  · rw [update_fst, hmerge,
      postSteps_field _ _ (by decide) (by decide) (by decide) (by decide),
      detailsMerge_city_get,
      geocodeStep_frame_get env location "city" (.str "")
        (by decide) (by decide)]
  · rw [update_fst, hmerge,
      postSteps_field _ _ (by decide) (by decide) (by decide) (by decide),
      detailsMerge_state_get,
      geocodeStep_frame_get env location "state" (.str "")
        (by decide) (by decide)]
  · rw [update_fst, hmerge,
      postSteps_field _ _ (by decide) (by decide) (by decide) (by decide),
      detailsMerge_postal_get,
      geocodeStep_frame_get env location "postal" (.str "")
        (by decide) (by decide)]

/-- The first find-place candidate used by the merge witnesses. -/
def candW : Rec := [("place_id", Json.str "pid1")]

/-- Fully populated place details used by the C3/C4 witnesses. -/
def detailsW : PlaceDetails :=
  { address_components := some
      [⟨["street_number"], some "12", none⟩,
       ⟨["route"], some "Main St", none⟩,
       ⟨["locality"], some "Austin", none⟩,
       ⟨["administrative_area_level_1"], some "Texas", some "TX"⟩,
       ⟨["postal_code"], some "78701", none⟩],
    formatted_phone_number := some "512-555-0100",
    website := some "https://acme.example",
    opening_hours := some ⟨some (WeekdayText.list ["Mon: 9-5", "Tue: 9-5"])⟩ }

/-- Environment of the merge witnesses: find-place and place-details both
succeed. -/
def envMerge : GeoEnv :=
  ⟨fun _ => none, fun _ => some candW, fun _ => some detailsW⟩

/-- Record of the merge witnesses, with non-empty prior values. -/
def locW : Rec :=
  [("name", Json.str "Acme"), ("city", Json.str "Oldtown"),
   ("state", Json.str "OS"), ("address", Json.str "9 Old Rd"),
   ("postal", Json.str "00000"), ("phone", Json.str "000"),
   ("web", Json.str "w"), ("hours1", Json.str "old hours"),
   ("hours2", Json.str "h2"), ("hours3", Json.str "h3"),
   ("lat", Json.str "1.0"), ("lng", Json.str "2.0"),
   ("featured", Json.str "yes")]

/-- Witness for C3 at a concrete environment, record and details. -/
theorem C3_merge_precedence_witness :
    (alookup ((update_location_info envMerge locW).1) "address"
      = some (if mergedStreet detailsW ≠ "" then .str (mergedStreet detailsW)
              else dictGet locW "address" (.str "")))
    ∧ (alookup ((update_location_info envMerge locW).1) "city"
      = some (if (extractComponents
                (detailsW.address_components.getD [])).city ≠ ""
              then .str (extractComponents
                (detailsW.address_components.getD [])).city
              else dictGet locW "city" (.str "")))
    ∧ (alookup ((update_location_info envMerge locW).1) "state"
      = some (if (extractComponents
                (detailsW.address_components.getD [])).state ≠ ""
              then .str (extractComponents
                (detailsW.address_components.getD [])).state
              else dictGet locW "state" (.str "")))
    ∧ (alookup ((update_location_info envMerge locW).1) "postal"
      = some (if (extractComponents
                (detailsW.address_components.getD [])).postal ≠ ""
              then .str (extractComponents
                (detailsW.address_components.getD [])).postal
              else dictGet locW "postal" (.str "")))
    ∧ mergedStreet detailsW = joinFiltered " "
        [(extractComponents (detailsW.address_components.getD [])).street_number,
         (extractComponents (detailsW.address_components.getD [])).route] :=
  C3_merge_precedence envMerge locW candW (Json.str "pid1") detailsW
    rfl rfl rfl (by decide) rfl

/-- Place details for the C4 counterexample: `formatted_phone_number` is
present but empty, `opening_hours` is absent. -/
def detailsC4 : PlaceDetails :=
  { address_components := none,
    formatted_phone_number := some "",
    website := none,
    opening_hours := none }

/-- Environment of the C4 counterexample. -/
def envC4 : GeoEnv :=
  ⟨fun _ => none, fun _ => some candW, fun _ => some detailsC4⟩

/-- Record of the C4 counterexample, with non-empty prior phone and
hours1. -/
def locC4 : Rec :=
  [("name", Json.str "Acme"), ("city", Json.str "B"), ("state", Json.str "C"),
   ("phone", Json.str "555-0000"), ("hours1", Json.str "Mon 9-5"),
   ("lat", Json.str "1"), ("lng", Json.str "2")]

/-- C4 counterexample: the place details contain a present-but-empty
`formatted_phone_number` and no `opening_hours`; the merge runs and
overwrites the non-empty prior phone with the empty string and the
non-empty prior hours1 with the newline-join of the defaulted empty
weekday list — the prior values are not kept, contrary to the claim. -/
theorem C4_counterexample :
    detailsC4.formatted_phone_number = some ""
    ∧ detailsC4.opening_hours = none
    ∧ dictGet locC4 "phone" (.str "") = .str "555-0000"
    ∧ dictGet locC4 "hours1" (.str "") = .str "Mon 9-5"
    ∧ alookup ((update_location_info envC4 locC4).1) "phone" = some (.str "")
    ∧ alookup ((update_location_info envC4 locC4).1) "hours1" = some (.str "")
    ∧ (("" : String) ≠ "555-0000")
    ∧ (("" : String) ≠ "Mon 9-5") :=
  ⟨rfl, rfl, rfl, rfl, rfl, rfl, by decide, by decide⟩

/-- C4 (amended): in the field merge, phone (resp. website) is overwritten
with the provided value exactly when the details dict contains the key —
even when that value is empty — and keeps its prior value only when the
key is absent; hours1 is set to the newline-join of the weekday text
whenever the value under `opening_hours.weekday_text` is a list, where a
missing `opening_hours` or `weekday_text` counts as the empty list
(yielding an empty hours1); the prior hours1 survives the merge only when
a present `weekday_text` is not a list; hours2 and hours3 are never
written by the merge. -/
theorem C4_phone_web_hours_amended (env : GeoEnv) (location : Rec)
    (candidate : Rec) (pid_v : Json) (d : PlaceDetails)
    (hfp : env.find_place (findQuery location) = some candidate)
    (hne : candidate.isEmpty = false)
    (hpid : alookup candidate "place_id" = some pid_v)
    (hpt : truthy pid_v = true)
    (hpd : env.place (pyStr pid_v) = some d) :
    (alookup ((update_location_info env location).1) "phone"
      = some (match d.formatted_phone_number with
              | some p => .str p
              | none => dictGet location "phone" (.str "")))
    ∧ (alookup ((update_location_info env location).1) "web"
      = some (match d.website with
              | some w => .str w
              | none => dictGet location "web" (.str "")))
    ∧ (alookup ((update_location_info env location).1) "hours1"
      = some (match weekdayTextOf d with
              | .list lines => .str (joinSep "\n" lines)
              | .nonlist => dictGet location "hours1" (.str "")))
    ∧ (weekdayTextOf d
        = ((d.opening_hours.getD ⟨none⟩).weekday_text).getD
            (WeekdayText.list []))
    ∧ (alookup ((update_location_info env location).1) "hours2"
        = some (dictGet location "hours2" (.str "")))
    ∧ (alookup ((update_location_info env location).1) "hours3"
        = some (dictGet location "hours3" (.str ""))) := by
  have hmerge : (placeStep env (geocodeStep env location).1
      (pyStr (dictGet location "name" (.str "")))
      (pyStr (dictGet location "city" (.str "")))
      (pyStr (dictGet location "state" (.str "")))).1
      = detailsMerge (geocodeStep env location).1 d :=
    placeStep_merge env (geocodeStep env location).1
      (pyStr (dictGet location "name" (.str "")))
      (pyStr (dictGet location "city" (.str "")))
      (pyStr (dictGet location "state" (.str "")))
      candidate pid_v d hfp hne hpid hpt hpd
  refine ⟨?_, ?_, ?_, rfl, ?_, ?_⟩
  · rw [update_fst, hmerge,
      postSteps_field _ _ (by decide) (by decide) (by decide) (by decide),
      detailsMerge_phone_get]
    simp only [geocodeStep_frame_get env location "phone" (Json.str "")
      (by decide) (by decide)]
  · rw [update_fst, hmerge,
      postSteps_field _ _ (by decide) (by decide) (by decide) (by decide),
      detailsMerge_web_get]
    simp only [geocodeStep_frame_get env location "web" (Json.str "")
      (by decide) (by decide)]
  · rw [update_fst, hmerge,
      postSteps_field _ _ (by decide) (by decide) (by decide) (by decide),
      detailsMerge_hours1_get]
    simp only [geocodeStep_frame_get env location "hours1" (Json.str "")
      (by decide) (by decide)]
  · rw [update_fst, hmerge,
      postSteps_field _ _ (by decide) (by decide) (by decide) (by decide),
      detailsMerge_frame_get _ _ _ _ (by decide) (by decide) (by decide)
        (by decide) (by decide) (by decide) (by decide),
      geocodeStep_frame_get env location "hours2" (.str "")
        (by decide) (by decide)]
  · rw [update_fst, hmerge,
      postSteps_field _ _ (by decide) (by decide) (by decide) (by decide),
      detailsMerge_frame_get _ _ _ _ (by decide) (by decide) (by decide)
        (by decide) (by decide) (by decide) (by decide),
      geocodeStep_frame_get env location "hours3" (.str "")
        (by decide) (by decide)]

/-- Witness for the amended C4 at a concrete environment, record and
details. -/
theorem C4_phone_web_hours_amended_witness :
    (alookup ((update_location_info envMerge locW).1) "phone"
      = some (match detailsW.formatted_phone_number with
              | some p => .str p
              | none => dictGet locW "phone" (.str "")))
    ∧ (alookup ((update_location_info envMerge locW).1) "web"
      = some (match detailsW.website with
              | some w => .str w
              | none => dictGet locW "web" (.str "")))
    ∧ (alookup ((update_location_info envMerge locW).1) "hours1"
      = some (match weekdayTextOf detailsW with
              | .list lines => .str (joinSep "\n" lines)
              | .nonlist => dictGet locW "hours1" (.str "")))
    ∧ (weekdayTextOf detailsW
        = ((detailsW.opening_hours.getD ⟨none⟩).weekday_text).getD
            (WeekdayText.list []))
    ∧ (alookup ((update_location_info envMerge locW).1) "hours2"
        = some (dictGet locW "hours2" (.str "")))
    ∧ (alookup ((update_location_info envMerge locW).1) "hours3"
        = some (dictGet locW "hours3" (.str ""))) :=
  C4_phone_web_hours_amended envMerge locW candW (Json.str "pid1") detailsW
    rfl rfl rfl (by decide) rfl

end SSGeo
